import Mathlib

/-!
Verification of the File Investigator dashboard (markmdev/aws-bedrock).

A shallow embedding of the client-side state model and event handlers:
  * `src/types/investigator.ts` — the data model (`FileInvestigatorState` etc.)
  * `src/app/page.tsx` — the state handlers (`handleFileUpload`,
    `handleCopyTweet`, `handlePostTweet`, `handleEditTweet`) and the
    default tool renderer wiring
  * `src/components/file-upload.tsx` — file intake validation (`handleFile`)
  * `src/components/dashboard-panels.tsx` — tweets panel local edit state
    (`startEdit`, `saveEdit`, `cancelEdit`)
  * `src/components/tool-cards.tsx` — `AnalysisProposalCard`, `DefaultToolCard`

Stateful React components are embedded as explicit state-passing functions;
JSX render output is embedded as a record of the observable view facts the
claims speak about.
-/

namespace Investigator

/-- `UploadedFile` from `src/types/investigator.ts`. -/
structure UploadedFile where
  name : String
  base64 : String
  mimeType : String
deriving Repr, DecidableEq

/-- `Finding.severity` ∈ {low, medium, high, critical}. -/
inductive Severity where
  | low
  | medium
  | high
  | critical
deriving Repr, DecidableEq

/-- `Finding` from `src/types/investigator.ts`. -/
structure Finding where
  id : String
  title : String
  description : String
  severity : Severity
deriving Repr, DecidableEq

/-- `RedactedItem` from `src/types/investigator.ts`.
`confidence` is a JS number used as an integer percentage. -/
structure RedactedItem where
  id : String
  location : String
  speculation : String
  confidence : Int
deriving Repr, DecidableEq

/-- `Tweet` from `src/types/investigator.ts`. -/
structure Tweet where
  id : String
  content : String
  posted : Bool
deriving Repr, DecidableEq

/-- `AnalysisStatus` = 'idle' | 'proposed' | 'analyzing' | 'complete'. -/
inductive AnalysisStatus where
  | idle
  | proposed
  | analyzing
  | complete
deriving Repr, DecidableEq

/-- `FileInvestigatorState` from `src/types/investigator.ts`:
the Shared Document State record. -/
structure FileInvestigatorState where
  uploadedFile : Option UploadedFile
  findings : List Finding
  redactedContent : List RedactedItem
  tweets : List Tweet
  summary : Option String
  analysisStatus : AnalysisStatus
deriving Repr, DecidableEq

/-- `INITIAL_STATE` from `src/types/investigator.ts`. -/
def INITIAL_STATE : FileInvestigatorState :=
  { uploadedFile := none
    findings := []
    redactedContent := []
    tweets := []
    summary := none
    analysisStatus := .idle }

/-- `handleFileUpload` from `src/app/page.tsx` (lines 40–54).
The callback receives the new file (or `null` to clear) and issues a single
`setState` that spreads the previous state, replaces `uploadedFile`, sets
`analysisStatus` via the source's `file ? "idle" : "idle"` conditional, and
resets the four derived-analysis fields. -/
def handleFileUpload (file : Option UploadedFile)
    (state : FileInvestigatorState) : FileInvestigatorState :=
  { state with
    uploadedFile := file
    analysisStatus := match file with
      | some _ => .idle
      | none => .idle
    findings := []
    redactedContent := []
    tweets := []
    summary := none }

/-! ## File Intake (`src/components/file-upload.tsx`) -/

/-- The parts of a browser `File` object that `handleFile` consults, plus the
data URL its `FileReader.readAsDataURL` call would produce for it.
`mimeType` embeds the `file.type` property (the browser-declared MIME type)
and `size` the `file.size` property (byte size). -/
structure BrowserFile where
  name : String
  mimeType : String
  size : Nat
  dataUrl : String
deriving Repr, DecidableEq

/-- `MAX_SIZE` from `handleFile`: `10 * 1024 * 1024` bytes (10 MiB). -/
def MAX_SIZE : Nat := 10 * 1024 * 1024

/-- The observable outcome of one `handleFile` call: the alert shown (if the
file was rejected) and the argument passed to the `onFileUpload` callback
(if it was invoked). -/
structure IntakeOutcome where
  alert : Option String
  upload : Option UploadedFile
deriving Repr, DecidableEq

/-- The base64 payload extracted in the `reader.onload` handler:
`(e.target?.result as string).split(",")[1]`, i.e. the piece after the
first comma of the data URL. -/
def base64Of (dataUrl : String) : String :=
  (dataUrl.splitOn ",").getD 1 ""

/-- `handleFile` from `src/components/file-upload.tsx` (lines 24–53):
reject with an alert unless `file.type` is `application/pdf`; reject with an
alert if `file.size > MAX_SIZE`; otherwise read the file, extract the base64
payload and invoke `onFileUpload` with the normalized `UploadedFile`. -/
def handleFile (file : BrowserFile) : IntakeOutcome :=
  if file.mimeType ≠ "application/pdf" then
    { alert := some "Please upload a PDF file", upload := none }
  else if file.size > MAX_SIZE then
    { alert := some "File too large. Maximum size is 10MB.", upload := none }
  else
    { alert := none
      upload := some
        { name := file.name
          base64 := base64Of file.dataUrl
          mimeType := file.mimeType } }

/-- The full intake path as wired in `page.tsx`: when `handleFile` invokes
the `onFileUpload` callback, the callback is `handleFileUpload`; when it
rejects, no state write happens. -/
def runIntake (file : BrowserFile) (state : FileInvestigatorState) :
    FileInvestigatorState :=
  match (handleFile file).upload with
  | some u => handleFileUpload (some u) state
  | none => state

/-- A well-formed small PDF upload, used by witnesses. -/
def samplePdf : BrowserFile :=
  { name := "report.pdf"
    mimeType := "application/pdf"
    size := 2048
    dataUrl := "data:application/pdf;base64,JVBERi0=" }

/-- A zero-byte PDF upload, used by witnesses. -/
def sampleEmptyPdf : BrowserFile :=
  { name := "empty.pdf"
    mimeType := "application/pdf"
    size := 0
    dataUrl := "data:application/pdf;base64," }

/-- A file whose extension says PDF but whose declared MIME type does not,
used by witnesses. -/
def sampleTxt : BrowserFile :=
  { name := "evil.pdf"
    mimeType := "text/plain"
    size := 2048
    dataUrl := "data:text/plain;base64,aGk=" }

/-- Same declared MIME type and size as `sampleTxt` but a different name and
extension, used by witnesses. -/
def sampleTxt2 : BrowserFile :=
  { name := "notes.txt"
    mimeType := "text/plain"
    size := 2048
    dataUrl := "data:text/plain;base64,eW8=" }

/-! ## Tweet actions (`src/app/page.tsx`) and the panel edit state
(`src/components/dashboard-panels.tsx`) -/

/-- `handlePostTweet` from `src/app/page.tsx` (lines 64–76), restricted to
the `setState` payload it issues: map over the tweets, setting
`posted := true` on those whose id matches (the source compares with `===`;
on strings that is string equality). The handler also surfaces a transient
toast, which is local UI state, not Shared Document State. -/
def handlePostTweet (id : String) (state : FileInvestigatorState) :
    FileInvestigatorState :=
  { state with
    tweets := state.tweets.map fun t =>
      if t.id = id then { t with posted := true } else t }

/-- `handleEditTweet` from `src/app/page.tsx` (lines 79–89): map over the
tweets, replacing `content` on those whose id matches. -/
def handleEditTweet (id newContent : String)
    (state : FileInvestigatorState) : FileInvestigatorState :=
  { state with
    tweets := state.tweets.map fun t =>
      if t.id = id then { t with content := newContent } else t }

/-- The client-side view: Shared Document State plus the purely local UI
state — the edit mode of `TweetsPanel` (`editingId`, `editContent`), the
page toast, and the system clipboard written by the Copy action. -/
structure ClientUi where
  shared : FileInvestigatorState
  editingId : Option String
  editContent : String
  toastMessage : Option String
  clipboard : Option String
deriving Repr, DecidableEq

/-- `startEdit` from `src/components/dashboard-panels.tsx`: enter edit mode
on a tweet, seeding the draft with its current content. -/
def startEdit (t : Tweet) (u : ClientUi) : ClientUi :=
  { u with editingId := some t.id, editContent := t.content }

/-- `saveEdit` from `src/components/dashboard-panels.tsx` (lines 118–121):
commit the draft through `onEdit` — wired to `handleEditTweet` in
`page.tsx` — and leave edit mode. -/
def saveEdit (id : String) (u : ClientUi) : ClientUi :=
  { u with
    shared := handleEditTweet id u.editContent u.shared
    editingId := none }

/-- `cancelEdit` from `src/components/dashboard-panels.tsx` (lines
123–126): leave edit mode and discard the draft; no call into the shared
state. -/
def cancelEdit (u : ClientUi) : ClientUi :=
  { u with editingId := none, editContent := "" }

/-- `handleCopyTweet` from `src/app/page.tsx` (lines 57–61): write the
content to the system clipboard and surface a transient toast; `setState`
is never called. -/
def handleCopyTweet (content : String) (u : ClientUi) : ClientUi :=
  { u with
    clipboard := some content
    toastMessage := some "Tweet copied! Handle with care..." }

/-- A concrete two-tweet list, used by witnesses. -/
def sampleTweets : List Tweet :=
  [{ id := "t1", content := "old", posted := false },
   { id := "t2", content := "keep", posted := true }]

/-- A concrete populated state, used by witnesses. -/
def sampleState : FileInvestigatorState :=
  { uploadedFile := none
    findings := []
    redactedContent := []
    tweets := sampleTweets
    summary := some "a summary"
    analysisStatus := .complete }

/-- A concrete client view mid-edit of tweet `t1`, used by witnesses. -/
def sampleUi : ClientUi :=
  { shared := sampleState
    editingId := some "t1"
    editContent := "new"
    toastMessage := none
    clipboard := none }

/-! ## Tool-call visualizers (`src/components/tool-cards.tsx`) -/

/-- The response recorded by `AnalysisProposalCard` in its local
`responded` state. -/
inductive ProposalResponse where
  | approved
  | denied
deriving Repr, DecidableEq

/-- The two button clicks the proposal card can receive. -/
inductive CardEvent where
  | approveClick
  | denyClick
deriving Repr, DecidableEq

/-- The observable render of `AnalysisProposalCard` as a function of its
`responded` state: the approved confirmation block, the denied confirmation
block, or the Approve/Deny button row (rendered only while
`responded === null`). -/
structure CardView where
  showApprovedConfirmation : Bool
  showDeniedConfirmation : Bool
  showButtons : Bool
deriving Repr, DecidableEq

/-- The JSX of `AnalysisProposalCard` (tool-cards, lines 60–92): a
three-way branch on `responded`. -/
def renderCard : Option ProposalResponse → CardView
  | some .approved =>
    { showApprovedConfirmation := true
      showDeniedConfirmation := false
      showButtons := false }
  | some .denied =>
    { showApprovedConfirmation := false
      showDeniedConfirmation := true
      showButtons := false }
  | none =>
    { showApprovedConfirmation := false
      showDeniedConfirmation := false
      showButtons := true }

/-- `handleApprove` from `AnalysisProposalCard`: record the approval (and
fire the `onApprove` callback, outside this state). -/
def handleApprove (_ : Option ProposalResponse) : Option ProposalResponse :=
  some .approved

/-- `handleDeny` from `AnalysisProposalCard`: record the denial. -/
def handleDeny (_ : Option ProposalResponse) : Option ProposalResponse :=
  some .denied

/-- One UI interaction step with the proposal card: a click reaches a
handler only while the corresponding button is rendered, which the JSX
grants exactly when `responded` is still `null`. -/
def cardStep (r : Option ProposalResponse) (e : CardEvent) :
    Option ProposalResponse :=
  if (renderCard r).showButtons then
    match e with
    | .approveClick => handleApprove r
    | .denyClick => handleDeny r
  else r

/-- The response a first click records. -/
def responseOf : CardEvent → ProposalResponse
  | .approveClick => .approved
  | .denyClick => .denied

/-- The lifecycle status of a tool call: 'inProgress', 'executing',
'complete'. -/
inductive ToolStatus where
  | inProgress
  | executing
  | complete
deriving Repr, DecidableEq

/-- A JavaScript value as passed in a tool call `args`/`result` payload.
`undefined` and `jsNull` embed the two JS values the source singles out in
its `result !== undefined && result !== null` guard. -/
inductive JsValue where
  | undefined
  | jsNull
  | bool (b : Bool)
  | num (n : Int)
  | str (s : String)
  | arr (elems : List JsValue)
  | obj (fields : List (String × JsValue))

/-- The guard `result !== undefined && result !== null` from
`DefaultToolCard` (tool-cards, lines 243–248). -/
def resultPresent : JsValue → Bool
  | .undefined => false
  | .jsNull => false
  | _ => true

/-- The props `useDefaultTool` in `page.tsx` (lines 94–103) forwards
verbatim to `DefaultToolCard`. -/
structure DefaultToolCardProps where
  name : String
  status : ToolStatus
  args : JsValue
  result : JsValue

/-- The observable render of `DefaultToolCard`: the name label, the status
badge text, whether the badge uses the green complete styling, and the raw
args/result blocks visible in the expanded section. -/
structure ToolCardView where
  shownName : String
  statusLabel : ToolStatus
  completeBadge : Bool
  argsShown : Option JsValue
  resultShown : Option JsValue

/-- The JSX of `DefaultToolCard` (tool-cards, lines 210–251) as a function
of its props and its local `expanded` state: the header always shows the
raw name and the status text, styled green exactly on `complete`; the
expanded section shows the raw args, and the raw result only when the
result-present guard holds. -/
def renderDefaultToolCard (p : DefaultToolCardProps) (expanded : Bool) :
    ToolCardView :=
  { shownName := p.name
    statusLabel := p.status
    completeBadge := match p.status with
      | .complete => true
      | _ => false
    argsShown := if expanded then some p.args else none
    resultShown :=
      if expanded && resultPresent p.result then some p.result else none }

end Investigator

namespace Investigator

/-- Mapping a tweet transformer that preserves a field `g` over a list
preserves the projection of that field. -/
theorem map_field_eq {α : Type} (f : Tweet → Tweet) (g : Tweet → α)
    (hf : ∀ t, g (f t) = g t) (l : List Tweet) :
    (l.map f).map g = l.map g := by
  induction l with
  | nil => rfl
  | cons a l ih => simp [hf, ih]

/-- Every pair in the zip of a list with its map is a point and its
image. -/
theorem mem_zip_map {f : Tweet → Tweet} {l : List Tweet} {p : Tweet × Tweet}
    (hp : p ∈ l.zip (l.map f)) : p.2 = f p.1 := by
  induction l with
  | nil => simp at hp
  | cons a l ih =>
    simp only [List.map_cons, List.zip_cons_cons, List.mem_cons] at hp
    rcases hp with h | h
    · subst h
      rfl
    · exact ih h

/-- The per-tweet post transformer is idempotent on a tweet list. -/
theorem postMap_idem (tid : String) (l : List Tweet) :
    ((l.map fun t => if t.id = tid then { t with posted := true } else t).map
        fun t => if t.id = tid then { t with posted := true } else t) =
      l.map fun t => if t.id = tid then { t with posted := true } else t := by
  induction l with
  | nil => rfl
  | cons a l ih =>
    simp only [List.map_cons, ih]
    by_cases h : a.id = tid <;> simp [h]

/-- Claim C1: for every prior state and every uploaded file (or `none` to
clear), `handleFileUpload` produces a state whose `findings`,
`redactedContent` and `tweets` are empty, whose `summary` is `none`, and in
that same single resulting state the `uploadedFile` field holds the new
value. -/
theorem handleFileUpload_resets_derived_fields
    (file : Option UploadedFile) (state : FileInvestigatorState) :
    (handleFileUpload file state).findings = [] ∧
    (handleFileUpload file state).redactedContent = [] ∧
    (handleFileUpload file state).tweets = [] ∧
    (handleFileUpload file state).summary = none ∧
    (handleFileUpload file state).uploadedFile = file := by
  refine ⟨rfl, rfl, rfl, rfl, rfl⟩

/-- Claim C10: for every prior state, `handleFileUpload` sets
`analysisStatus` to `idle`, both when a new file is supplied and when `none`
is passed to clear the file. -/
theorem handleFileUpload_status_idle
    (file : Option UploadedFile) (state : FileInvestigatorState) :
    (handleFileUpload file state).analysisStatus = .idle := by
  cases file <;> rfl

/-- Claim C2: for every file whose declared MIME type is not
`application/pdf`, File Intake shows the rejection alert, never invokes the
upload callback, and consequently the Shared Document State is not
mutated. -/
theorem intake_rejects_non_pdf
    (file : BrowserFile) (state : FileInvestigatorState)
    (h : file.mimeType ≠ "application/pdf") :
    (handleFile file).alert = some "Please upload a PDF file" ∧
    (handleFile file).upload = none ∧
    runIntake file state = state := by
  simp [handleFile, if_pos h, runIntake]

/-- Witness for C2 at a concrete file: `.pdf` extension but declared MIME
type `text/plain`. -/
theorem intake_rejects_non_pdf_witness :
    sampleTxt.mimeType ≠ "application/pdf" ∧
    ((handleFile sampleTxt).alert = some "Please upload a PDF file" ∧
      (handleFile sampleTxt).upload = none ∧
      runIntake sampleTxt INITIAL_STATE = INITIAL_STATE) :=
  ⟨by decide, intake_rejects_non_pdf sampleTxt INITIAL_STATE (by decide)⟩

/-- Claim C3: for every file with declared MIME type `application/pdf`, a
byte size above 10 MiB is rejected with an alert and without any state
write, while a byte size of at most 10 MiB (a zero-byte file included)
passes validation and proceeds to encoding, producing the normalized
`UploadedFile` for the callback. -/
theorem intake_pdf_size_gate
    (file : BrowserFile) (state : FileInvestigatorState)
    (hmime : file.mimeType = "application/pdf") :
    (file.size > MAX_SIZE →
      (handleFile file).alert = some "File too large. Maximum size is 10MB." ∧
      (handleFile file).upload = none ∧
      runIntake file state = state) ∧
    (file.size ≤ MAX_SIZE →
      (handleFile file).alert = none ∧
      (handleFile file).upload = some
        { name := file.name
          base64 := base64Of file.dataUrl
          mimeType := file.mimeType }) := by
  constructor
  · intro hbig
    simp [handleFile, if_neg (not_not_intro hmime), if_pos hbig, runIntake]
  · intro hsmall
    simp [handleFile, if_neg (not_not_intro hmime),
      if_neg (not_lt.mpr hsmall)]

/-- Witness for C3 at a concrete zero-byte PDF: it passes validation and
reaches the callback. -/
theorem intake_pdf_size_gate_witness :
    sampleEmptyPdf.mimeType = "application/pdf" ∧
    sampleEmptyPdf.size ≤ MAX_SIZE ∧
    ((handleFile sampleEmptyPdf).alert = none ∧
      (handleFile sampleEmptyPdf).upload = some
        { name := sampleEmptyPdf.name
          base64 := base64Of sampleEmptyPdf.dataUrl
          mimeType := sampleEmptyPdf.mimeType }) :=
  ⟨by decide, by decide,
    (intake_pdf_size_gate sampleEmptyPdf INITIAL_STATE (by decide)).2 (by decide)⟩

/-- Claim C9: the accept/reject decision of File Intake depends only on the
declared MIME type and the byte size — two files agreeing on those two
properties get the same alert and the same accept/reject outcome, whatever
their names or extensions. -/
theorem intake_decision_ignores_name
    (f g : BrowserFile)
    (hm : f.mimeType = g.mimeType) (hs : f.size = g.size) :
    (handleFile f).upload.isSome = (handleFile g).upload.isSome ∧
    (handleFile f).alert = (handleFile g).alert := by
  by_cases h1 : g.mimeType = "application/pdf"
  · by_cases h2 : g.size > MAX_SIZE <;>
      simp [handleFile, hm, hs, h1, h2]
  · simp [handleFile, hm, hs, h1]

/-- Witness for C9 at two concrete files that differ only in name and
extension. -/
theorem intake_decision_ignores_name_witness :
    sampleTxt.mimeType = sampleTxt2.mimeType ∧
    sampleTxt.size = sampleTxt2.size ∧
    ((handleFile sampleTxt).upload.isSome =
        (handleFile sampleTxt2).upload.isSome ∧
      (handleFile sampleTxt).alert = (handleFile sampleTxt2).alert) :=
  ⟨by decide, by decide,
    intake_decision_ignores_name sampleTxt sampleTxt2 (by decide) (by decide)⟩

/-- Claim C4: saving a tweet edit changes only the `content` of the
tweet(s) whose id matches: the ids, the posted flags, the order and length
of the tweets sequence, the non-matching tweets themselves, and every other
top-level state field are unchanged. -/
theorem saveEdit_frame (tid : String) (u : ClientUi) :
    ((saveEdit tid u).shared.uploadedFile = u.shared.uploadedFile) ∧
    ((saveEdit tid u).shared.findings = u.shared.findings) ∧
    ((saveEdit tid u).shared.redactedContent = u.shared.redactedContent) ∧
    ((saveEdit tid u).shared.summary = u.shared.summary) ∧
    ((saveEdit tid u).shared.analysisStatus = u.shared.analysisStatus) ∧
    ((saveEdit tid u).shared.tweets.length = u.shared.tweets.length) ∧
    ((saveEdit tid u).shared.tweets.map Tweet.id =
      u.shared.tweets.map Tweet.id) ∧
    ((saveEdit tid u).shared.tweets.map Tweet.posted =
      u.shared.tweets.map Tweet.posted) ∧
    (∀ p ∈ u.shared.tweets.zip (saveEdit tid u).shared.tweets,
      (p.1.id ≠ tid → p.2 = p.1) ∧
      (p.1.id = tid →
        p.2.content = u.editContent ∧ p.2.id = p.1.id ∧
          p.2.posted = p.1.posted)) := by
  refine ⟨rfl, rfl, rfl, rfl, rfl, ?_, ?_, ?_, ?_⟩
  · simp [saveEdit, handleEditTweet]
  · exact map_field_eq _ Tweet.id
      (fun t => by by_cases h : t.id = tid <;> simp [h]) _
  · exact map_field_eq _ Tweet.posted
      (fun t => by by_cases h : t.id = tid <;> simp [h]) _
  · intro p hp
    simp only [saveEdit, handleEditTweet] at hp
    have h2 := mem_zip_map hp
    constructor
    · intro hne
      rw [h2]
      simp [hne]
    · intro heq
      rw [h2]
      simp [heq]

/-- Witness for C4: in the concrete mid-edit client view, saving pairs the
old `t1` with an edited tweet whose content is exactly the draft and whose
id and posted flag are preserved. -/
theorem saveEdit_frame_witness :
    ((Tweet.mk "t1" "old" false, Tweet.mk "t1" "new" false) ∈
      sampleUi.shared.tweets.zip ((saveEdit "t1" sampleUi).shared.tweets)) ∧
    (Tweet.mk "t1" "old" false).id = "t1" ∧
    ((Tweet.mk "t1" "new" false).content = sampleUi.editContent ∧
      (Tweet.mk "t1" "new" false).id = (Tweet.mk "t1" "old" false).id ∧
      (Tweet.mk "t1" "new" false).posted =
        (Tweet.mk "t1" "old" false).posted) := by
  obtain ⟨-, -, -, -, -, -, -, -, hzip⟩ := saveEdit_frame "t1" sampleUi
  exact ⟨by decide, rfl,
    (hzip (Tweet.mk "t1" "old" false, Tweet.mk "t1" "new" false)
      (by decide)).2 rfl⟩

/-- Claim C5: posting a tweet sets `posted := true` exactly on the tweet(s)
whose id matches, preserving their content and id, leaving all other tweets
and every other state field unchanged, and the operation is idempotent on
state. -/
theorem handlePostTweet_spec (tid : String) (s : FileInvestigatorState) :
    ((handlePostTweet tid s).uploadedFile = s.uploadedFile) ∧
    ((handlePostTweet tid s).findings = s.findings) ∧
    ((handlePostTweet tid s).redactedContent = s.redactedContent) ∧
    ((handlePostTweet tid s).summary = s.summary) ∧
    ((handlePostTweet tid s).analysisStatus = s.analysisStatus) ∧
    ((handlePostTweet tid s).tweets.map Tweet.id = s.tweets.map Tweet.id) ∧
    ((handlePostTweet tid s).tweets.map Tweet.content =
      s.tweets.map Tweet.content) ∧
    (∀ p ∈ s.tweets.zip (handlePostTweet tid s).tweets,
      (p.1.id ≠ tid → p.2 = p.1) ∧
      (p.1.id = tid →
        p.2.posted = true ∧ p.2.content = p.1.content ∧
          p.2.id = p.1.id)) ∧
    handlePostTweet tid (handlePostTweet tid s) = handlePostTweet tid s := by
  refine ⟨rfl, rfl, rfl, rfl, rfl, ?_, ?_, ?_, ?_⟩
  · exact map_field_eq _ Tweet.id
      (fun t => by by_cases h : t.id = tid <;> simp [h]) _
  · exact map_field_eq _ Tweet.content
      (fun t => by by_cases h : t.id = tid <;> simp [h]) _
  · intro p hp
    simp only [handlePostTweet] at hp
    have h2 := mem_zip_map hp
    constructor
    · intro hne
      rw [h2]
      simp [hne]
    · intro heq
      rw [h2]
      simp [heq]
  · exact congrArg (fun l => { s with tweets := l }) (postMap_idem tid s.tweets)

/-- Witness for C5: posting `t1` in the concrete state pairs the unposted
`t1` with the same tweet marked posted, content and id untouched. -/
theorem handlePostTweet_spec_witness :
    ((Tweet.mk "t1" "old" false, Tweet.mk "t1" "old" true) ∈
      sampleState.tweets.zip ((handlePostTweet "t1" sampleState).tweets)) ∧
    (Tweet.mk "t1" "old" false).id = "t1" ∧
    ((Tweet.mk "t1" "old" true).posted = true ∧
      (Tweet.mk "t1" "old" true).content =
        (Tweet.mk "t1" "old" false).content ∧
      (Tweet.mk "t1" "old" true).id = (Tweet.mk "t1" "old" false).id) := by
  obtain ⟨-, -, -, -, -, -, -, hzip, -⟩ := handlePostTweet_spec "t1" sampleState
  exact ⟨by decide, rfl,
    (hzip (Tweet.mk "t1" "old" false, Tweet.mk "t1" "old" true)
      (by decide)).2 rfl⟩

/-- Claim C6: neither Copy nor Cancel writes to Shared Document State —
copying leaves the stored state untouched (it only fills the clipboard and
the toast), and canceling an in-progress edit exits edit mode with the
stored state, tweets included, unchanged whatever the draft held. -/
theorem copy_cancel_no_state_write (content : String) (u : ClientUi) :
    (handleCopyTweet content u).shared = u.shared ∧
    (cancelEdit u).shared = u.shared ∧
    (cancelEdit u).editingId = none :=
  ⟨rfl, rfl, rfl⟩

/-- Once the card has a recorded response, no click changes it. -/
theorem cardStep_absorb (r : ProposalResponse) (e : CardEvent) :
    cardStep (some r) e = some r := by
  cases r <;> cases e <;> rfl

/-- A responded card stays at its response through any event sequence. -/
theorem foldl_cardStep_absorb (r : ProposalResponse) (es : List CardEvent) :
    List.foldl cardStep (some r) es = some r := by
  induction es with
  | nil => rfl
  | cons e es ih => rw [List.foldl_cons, cardStep_absorb]; exact ih

/-- Claim C7: after any nonempty sequence of clicks on the proposal card,
the recorded response is the one of the first click, the buttons are gone,
and the confirmation shown matches that first response — later clicks,
including the opposite one, change nothing. -/
theorem proposal_card_single_response (e : CardEvent) (es : List CardEvent) :
    (List.foldl cardStep none (e :: es) = some (responseOf e)) ∧
    ((renderCard (List.foldl cardStep none (e :: es))).showButtons
      = false) ∧
    ((renderCard
        (List.foldl cardStep none (e :: es))).showApprovedConfirmation
      = (e == CardEvent.approveClick)) ∧
    ((renderCard
        (List.foldl cardStep none (e :: es))).showDeniedConfirmation
      = (e == CardEvent.denyClick)) := by
  have hfirst : cardStep none e = some (responseOf e) := by
    cases e <;> rfl
  have hall : List.foldl cardStep none (e :: es) = some (responseOf e) := by
    rw [List.foldl_cons, hfirst]
    exact foldl_cardStep_absorb (responseOf e) es
  refine ⟨hall, ?_, ?_, ?_⟩ <;> rw [hall] <;> cases e <;> rfl

/-- Claim C8: the fallback tool card shows the raw action name and the
lifecycle status, uses the complete styling exactly when the status is
`complete`, shows the raw arguments exactly when expanded, and shows the
raw result exactly when expanded and the result-present guard (neither
undefined nor null) holds. -/
theorem default_tool_card_spec (p : DefaultToolCardProps) (expanded : Bool) :
    ((renderDefaultToolCard p expanded).shownName = p.name) ∧
    ((renderDefaultToolCard p expanded).statusLabel = p.status) ∧
    ((renderDefaultToolCard p expanded).completeBadge = true ↔
      p.status = ToolStatus.complete) ∧
    ((renderDefaultToolCard p true).argsShown = some p.args) ∧
    ((renderDefaultToolCard p false).argsShown = none) ∧
    ((renderDefaultToolCard p false).resultShown = none) ∧
    ((renderDefaultToolCard p true).resultShown = some p.result ↔
      resultPresent p.result = true) ∧
    (resultPresent p.result = true ↔
      (p.result ≠ JsValue.undefined ∧ p.result ≠ JsValue.jsNull)) := by
  refine ⟨rfl, rfl, ?_, ?_, rfl, rfl, ?_, ?_⟩
  · obtain ⟨n, st, a, r⟩ := p
    cases st <;> simp [renderDefaultToolCard]
  · simp [renderDefaultToolCard]
  · by_cases h : resultPresent p.result <;>
      simp [renderDefaultToolCard, h]
  · cases p.result <;> simp [resultPresent]

end Investigator
